import Mathlib

/-!
Verification of `realtime_action_hub.py` (rozari0/treasure): a single-channel
real-time broadcast hub.  Sessions are modelled as natural-number handles, the
connection registry (`ConnectionManager.active_connections`, a Python list) as
a `List Nat`, and each operation of the source as an executable Lean function.
A Python call that can raise is embedded as `Except String _`, the error
string naming the Python exception.
-/

namespace Hub

/-- Outcome of one `connection.send_text(...)` call, as distinguished by the
two `except` arms of `ConnectionManager.broadcast` (lines 36-45):
the send succeeds, raises `RuntimeError` (channel already closed), or raises
any other `Exception` (transport fault). -/
inductive SendOutcome where
  | ok
  | closed
  | fault
deriving DecidableEq

/-- Python `list.remove(x)` (as called on `active_connections`): removes the
first occurrence of `x`, raises `ValueError` when `x` is absent. -/
def pyRemove (l : List Nat) (x : Nat) : Except String (List Nat) :=
  if x ∈ l then .ok (l.erase x) else .error "ValueError"

/-- `ConnectionManager.connect` (lines 20-24): accepts the socket and appends
it to `active_connections`. -/
def connect (reg : List Nat) (s : Nat) : List Nat := reg ++ [s]

/-- `ConnectionManager.disconnect` (lines 26-29): `active_connections.remove(websocket)`,
raising `ValueError` when the socket is not registered. -/
def disconnect (reg : List Nat) (s : Nat) : Except String (List Nat) :=
  pyRemove reg s

/-- The send loop of `ConnectionManager.broadcast` (lines 34-45) over a fixed
list of connections: returns the sublist that received the payload without
error and the `disconnected_sockets` list, both in iteration order.  Both
`except` arms append the connection to `disconnected_sockets`. -/
def broadcastLoop (send : Nat → SendOutcome) : List Nat → List Nat × List Nat
  | [] => ([], [])
  | c :: rest =>
    let r := broadcastLoop send rest
    match send c with
    | .ok => (c :: r.1, r.2)
    | .closed => (r.1, c :: r.2)
    | .fault => (r.1, c :: r.2)

/-- The cleanup loop of `ConnectionManager.broadcast` (lines 47-50):
`for socket in disconnected_sockets: if socket in self.active_connections:
self.active_connections.remove(socket)`.  The membership guard precedes the
`remove` call exactly as in the source. -/
def broadcastCleanup (reg : List Nat) : List Nat → Except String (List Nat)
  | [] => .ok reg
  | s :: rest =>
    if s ∈ reg then do
      let reg' ← pyRemove reg s
      broadcastCleanup reg' rest
    else broadcastCleanup reg rest

/-- Result of one `broadcast` call: the registry after cleanup, the sessions a
send was attempted to (in order), the sessions delivered without error, the
`disconnected_sockets` list, the payload that was sent, and the Python return
value (`broadcast` has no `return` statement, so it returns `None`). -/
structure BroadcastResult where
  reg : List Nat
  attempted : List Nat
  delivered : List Nat
  failed : List Nat
  payload : String
  ret : Option Nat
deriving DecidableEq

/-- `ConnectionManager.broadcast` (lines 31-54) in the absence of concurrent
registry mutation (no other task runs at the send suspension points): iterate
over `active_connections`, collect failed sends, then run the guarded cleanup
loop, and fall off the end of the function (returning `None`). -/
def broadcast (reg : List Nat) (send : Nat → SendOutcome) (payload : String) :
    Except String BroadcastResult := do
  let r := broadcastLoop send reg
  let reg' ← broadcastCleanup reg r.2
  .ok ⟨reg', reg, r.1, r.2, payload, none⟩

/-- Registry after a (possibly failing) broadcast; `[]` on error. -/
def resReg (e : Except String BroadcastResult) : List Nat :=
  match e with
  | .ok r => r.reg
  | .error _ => []

/-- Attempted-delivery list of a broadcast; `[]` on error. -/
def resAttempted (e : Except String BroadcastResult) : List Nat :=
  match e with
  | .ok r => r.attempted
  | .error _ => []

/-- Delivered-without-error list of a broadcast; `[]` on error. -/
def resDelivered (e : Except String BroadcastResult) : List Nat :=
  match e with
  | .ok r => r.delivered
  | .error _ => []

/-- The `disconnected_sockets` list of a broadcast; `[]` on error. -/
def resFailed (e : Except String BroadcastResult) : List Nat :=
  match e with
  | .ok r => r.failed
  | .error _ => []

/-- The payload a broadcast carried; `""` on error. -/
def resPayload (e : Except String BroadcastResult) : String :=
  match e with
  | .ok r => r.payload
  | .error _ => ""

/-- Python return value of a broadcast; `none` on error. -/
def resRet (e : Except String BroadcastResult) : Option Nat :=
  match e with
  | .ok r => r.ret
  | .error _ => none

/-- The action translation of `send_action` (lines 78-87): the if/elif chain
over the inbound token, the `else` branch passing the token through. -/
def translate (action : String) : String :=
  if action = "left" then "right"
  else if action = "right" then "left"
  else if action = "rotateForwards" then "up"
  else if action = "rotateReverse" then "down"
  else action

/-- Every send succeeds. -/
def sendAllOk : Nat → SendOutcome := fun _ => .ok

/-- Sends to session `2` raise a transport fault; all other sends succeed. -/
def faultOnTwo : Nat → SendOutcome := fun s => if s = 2 then .fault else .ok

/-- One registry call issued by a lifecycle handler: `connect` appends a new
handle, `disconnect` calls `active_connections.remove`. -/
inductive TraceOp where
  | register (s : Nat)
  | unregister (s : Nat)
deriving DecidableEq

/-- Registry together with counters over a call history: the list of live
connections, the number of `connect` calls so far, and the number of
`disconnect` calls that completed without raising. -/
structure TraceState where
  reg : List Nat
  registers : Nat
  unregisters : Nat
deriving DecidableEq

/-- Applies one call to the registry.  A `disconnect` of an absent handle
raises `ValueError` inside `list.remove`, which aborts before any mutation,
so the registry is unchanged and the call does not count as successful. -/
def traceStep (st : TraceState) : TraceOp → TraceState
  | .register s => ⟨connect st.reg s, st.registers + 1, st.unregisters⟩
  | .unregister s =>
    match disconnect st.reg s with
    | .ok reg' => ⟨reg', st.registers, st.unregisters + 1⟩
    | .error _ => ⟨st.reg, st.registers, st.unregisters⟩

/-- Replays a call history against a starting state. -/
def runTrace (st : TraceState) (ops : List TraceOp) : TraceState :=
  ops.foldl traceStep st

/-- The handles passed to the `register` calls of a history, in order. -/
def regHandles : List TraceOp → List Nat
  | [] => []
  | .register s :: rest => s :: regHandles rest
  | .unregister _ :: rest => regHandles rest

/-- A registry mutation performed by another task while a broadcast is
suspended in `await connection.send_text`: a client completes its handshake
(`connect` appends its handle) or a lifecycle handler removes one (the
registry effect of `disconnect`; when the handle is absent the `ValueError`
stays in that task and the registry is unchanged). -/
inductive RegOp where
  | join (s : Nat)
  | leave (s : Nat)
deriving DecidableEq

/-- Applies one concurrent mutation to the registry. -/
def applyRegOp (reg : List Nat) : RegOp → List Nat
  | .join s => reg ++ [s]
  | .leave s => if s ∈ reg then reg.erase s else reg

/-- Applies the mutations another task performs during one send. -/
def applyRegOps (reg : List Nat) (ops : List RegOp) : List Nat :=
  ops.foldl applyRegOp reg

/-- State of an in-flight pass of `for connection in self.active_connections`
(line 35): the live list, the iterator's index, and the attempted, delivered
and `disconnected_sockets` lists accumulated so far. -/
structure IState where
  reg : List Nat
  idx : Nat
  attempted : List Nat
  delivered : List Nat
  failed : List Nat
deriving DecidableEq

/-- The send loop of `broadcast` under cooperative concurrency.  The source
iterates `self.active_connections` itself (line 35 — no copy is taken), and
Python's list iterator keeps an index into the live list: each step reads the
element at the current index, the body suspends in `await connection.send_text`
— the only point where other tasks can run, modelled by applying `sched k`
during the k-th send — and the index then advances; the pass ends when the
index reaches the current length of the live list.  `fuel` bounds the number
of iterations (irrelevant when it is at least the number actually taken). -/
def iterLoop (send : Nat → SendOutcome) (sched : Nat → List RegOp) :
    Nat → IState → IState
  | 0, st => st
  | fuel + 1, st =>
    if h : st.idx < st.reg.length then
      match send (st.reg.get ⟨st.idx, h⟩) with
      | .ok =>
          iterLoop send sched fuel
            ⟨applyRegOps st.reg (sched st.idx), st.idx + 1,
             st.attempted ++ [st.reg.get ⟨st.idx, h⟩],
             st.delivered ++ [st.reg.get ⟨st.idx, h⟩], st.failed⟩
      | .closed =>
          iterLoop send sched fuel
            ⟨applyRegOps st.reg (sched st.idx), st.idx + 1,
             st.attempted ++ [st.reg.get ⟨st.idx, h⟩], st.delivered,
             st.failed ++ [st.reg.get ⟨st.idx, h⟩]⟩
      | .fault =>
          iterLoop send sched fuel
            ⟨applyRegOps st.reg (sched st.idx), st.idx + 1,
             st.attempted ++ [st.reg.get ⟨st.idx, h⟩], st.delivered,
             st.failed ++ [st.reg.get ⟨st.idx, h⟩]⟩
    else st

/-- `ConnectionManager.broadcast` under cooperative concurrency: the live-list
send loop above followed by the guarded cleanup loop of lines 47-50. -/
def broadcastI (reg : List Nat) (send : Nat → SendOutcome)
    (sched : Nat → List RegOp) (payload : String) (fuel : Nat) :
    Except String BroadcastResult :=
  match broadcastCleanup (iterLoop send sched fuel ⟨reg, 0, [], [], []⟩).reg
      (iterLoop send sched fuel ⟨reg, 0, [], [], []⟩).failed with
  | .ok reg' =>
      .ok ⟨reg', (iterLoop send sched fuel ⟨reg, 0, [], [], []⟩).attempted,
           (iterLoop send sched fuel ⟨reg, 0, [], [], []⟩).delivered,
           (iterLoop send sched fuel ⟨reg, 0, [], [], []⟩).failed, payload, none⟩
  | .error e => .error e

/-- No other task runs at the send suspension points. -/
def noSched : Nat → List RegOp := fun _ => []

/-- During the first send, client `2` completes its handshake and registers. -/
def joinSched : Nat → List RegOp := fun k => if k = 0 then [.join 2] else []

/-- During the first send, the lifecycle handler of client `2` unregisters it. -/
def leaveSched : Nat → List RegOp := fun k => if k = 0 then [.leave 2] else []

/-- During the second send, the lifecycle handler of client `2` unregisters it. -/
def leaveLateSched : Nat → List RegOp := fun k => if k = 1 then [.leave 2] else []

/-- The join notification of `websocket_endpoint` (lines 117-124):
`json.dumps` of the status/message pair broadcast right after `connect`. -/
def joinMessage : String :=
  "\x7b\"status\": \"connected\", \"message\": \"A new client joined the command channel.\"\x7d"

/-- The connect phase of `websocket_endpoint` (lines 110-124): the handshake
is accepted and the new socket registered (`manager.connect`, line 114), and
only then is the join notification broadcast (lines 117-124). -/
def websocketJoin (reg : List Nat) (ws : Nat) (send : Nat → SendOutcome) :
    Except String BroadcastResult :=
  broadcast (connect reg ws) send joinMessage

/-- The closed command set declared by the `Literal` annotation of
`send_action` (line 69). -/
def validActions : List String :=
  ["pull", "push", "right", "left", "rotateForwards", "rotateReverse"]

/-- An HTTP acknowledgement: the dict returned on success (lines 91-94). -/
structure Ack where
  status : String
  message : String
deriving DecidableEq

/-- The `/send_action` endpoint (lines 67-101) together with its request
validation.  Modelled from the spec: the web framework rejects any token
outside the `Literal` set of line 69 with a client-error (422) response
before the handler body runs; that validation code lives in the framework,
not in this repository.  On a valid token the body translates the action
(lines 78-87), broadcasts it (line 89), and returns the success
acknowledgement built from the inbound token and
`len(manager.active_connections)` (lines 91-94); an exception escaping the
broadcast is re-raised as a 500 server error (lines 95-101).  Returns the
acknowledgement (or error) together with the registry afterwards. -/
def send_action (action : String) (reg : List Nat) (send : Nat → SendOutcome) :
    Except String Ack × List Nat :=
  if action ∈ validActions then
    match broadcast reg send (translate action) with
    | .ok r =>
        (.ok ⟨"success",
          "Action '" ++ action ++ "' broadcasted to "
            ++ toString r.reg.length ++ " users."⟩,
         r.reg)
    | .error e =>
        (.error ("500 Internal Server Error: Failed to broadcast message: " ++ e),
         reg)
  else (.error "422 Unprocessable Entity", reg)

/-- The send loop delivers to exactly the sessions whose send succeeds and
collects exactly the sessions whose send fails, in iteration order. -/
theorem broadcastLoop_eq (send : Nat → SendOutcome) (reg : List Nat) :
    broadcastLoop send reg =
      (reg.filter (fun s => send s = SendOutcome.ok),
       reg.filter (fun s => ¬ send s = SendOutcome.ok)) := by
  induction reg with
  | nil => rfl
  | cons c rest ih =>
    simp only [broadcastLoop, ih, List.filter_cons]
    cases h : send c <;> simp [h]

/-- The guarded cleanup loop never raises: it returns the list difference
(each failed socket has its first occurrence removed when present). -/
theorem broadcastCleanup_eq_diff :
    ∀ (dis reg : List Nat), broadcastCleanup reg dis = .ok (reg.diff dis)
  | [], reg => by simp [broadcastCleanup]
  | s :: rest, reg => by
    by_cases h : s ∈ reg
    · simp only [broadcastCleanup, if_pos h, pyRemove, List.diff_cons]
      exact broadcastCleanup_eq_diff rest (reg.erase s)
    · simp only [broadcastCleanup, if_neg h, List.diff_cons,
        List.erase_of_not_mem h]
      exact broadcastCleanup_eq_diff rest reg

/-- On a duplicate-free registry (the situation the registry invariant
guarantees), `broadcast` completes normally, attempts every registered
session in order, records exactly the failing sessions, and leaves exactly
the succeeding sessions registered. -/
theorem broadcast_ok (reg : List Nat) (send : Nat → SendOutcome)
    (payload : String) (h : reg.Nodup) :
    broadcast reg send payload =
      .ok ⟨reg.filter (fun s => send s = SendOutcome.ok), reg,
           reg.filter (fun s => send s = SendOutcome.ok),
           reg.filter (fun s => ¬ send s = SendOutcome.ok), payload, none⟩ := by
  unfold broadcast
  rw [broadcastLoop_eq]
  simp only [broadcastCleanup_eq_diff]
  rw [List.Nodup.diff_eq_filter h]
  have : List.filter
      (fun x => decide (x ∉ reg.filter (fun s => ¬ send s = SendOutcome.ok))) reg =
      List.filter (fun s => send s = SendOutcome.ok) reg := by
    apply List.filter_congr
    intro x hx
    simp [List.mem_filter, hx]
  rw [this]
  rfl

/-- Replay invariant: when the registered handles are pairwise distinct and
fresh for the starting registry, the registry stays duplicate-free, every
`register` call is counted, and the size change balances registers against
successful unregisters. -/
theorem runTrace_invariant : ∀ (ops : List TraceOp) (st : TraceState),
    st.reg.Nodup → (regHandles ops).Nodup →
    (∀ x ∈ regHandles ops, ¬ x ∈ st.reg) →
    (runTrace st ops).reg.Nodup ∧
    (runTrace st ops).registers = st.registers + (regHandles ops).length ∧
    (runTrace st ops).reg.length + (runTrace st ops).unregisters + st.registers
      = st.reg.length + st.unregisters + (runTrace st ops).registers
  | [], st => by
    intro h1 _ _
    refine ⟨by simpa [runTrace] using h1, by simp [runTrace, regHandles],
      by simp [runTrace]⟩
  | .register s :: rest, st => by
    intro h1 h2 h3
    have hs : ¬ s ∈ st.reg := h3 s (by simp [regHandles])
    have h2' : (regHandles rest).Nodup := by
      simp [regHandles] at h2; exact h2.2
    have hsr : ¬ s ∈ regHandles rest := by
      simp [regHandles] at h2; exact h2.1
    have h1' : (st.reg ++ [s]).Nodup := by
      simp [List.nodup_append, h1, List.Disjoint]
      intro a ha has
      exact hs (has ▸ ha)
    have h3' : ∀ x ∈ regHandles rest, ¬ x ∈ st.reg ++ [s] := by
      intro x hx
      simp only [List.mem_append, List.mem_singleton]
      push_neg
      refine ⟨h3 x (by simp [regHandles, hx]), ?_⟩
      intro hxs
      exact hsr (hxs ▸ hx)
    have ih := runTrace_invariant rest
      ⟨st.reg ++ [s], st.registers + 1, st.unregisters⟩ h1' h2' h3'
    simp only [runTrace, List.foldl_cons, traceStep, connect] at *
    refine ⟨ih.1, ?_, ?_⟩
    · have := ih.2.1
      simp only [regHandles, List.length_cons]
      omega
    · have := ih.2.2
      have hlen : (st.reg ++ [s]).length = st.reg.length + 1 := by simp
      omega
  | .unregister s :: rest, st => by
    intro h1 h2 h3
    have h2' : (regHandles rest).Nodup := h2
    by_cases hmem : s ∈ st.reg
    · have hstep : traceStep st (.unregister s) =
          ⟨st.reg.erase s, st.registers, st.unregisters + 1⟩ := by
        simp [traceStep, disconnect, pyRemove, hmem]
      have h1' : (st.reg.erase s).Nodup := h1.erase s
      have h3' : ∀ x ∈ regHandles rest, ¬ x ∈ st.reg.erase s := by
        intro x hx hx'
        exact h3 x hx (List.erase_subset _ _ hx')
      have ih := runTrace_invariant rest
        ⟨st.reg.erase s, st.registers, st.unregisters + 1⟩ h1' h2' h3'
      simp only [runTrace, List.foldl_cons, hstep] at *
      simp only [regHandles]
      have hlen : (st.reg.erase s).length = st.reg.length - 1 :=
        List.length_erase_of_mem hmem
      have hpos : 0 < st.reg.length := List.length_pos_of_mem hmem
      have h21 := ih.2.1
      have h22 := ih.2.2
      exact ⟨ih.1, by omega, by omega⟩
    · have hstep : traceStep st (.unregister s) =
          ⟨st.reg, st.registers, st.unregisters⟩ := by
        simp [traceStep, disconnect, pyRemove, hmem]
      have ih := runTrace_invariant rest
        ⟨st.reg, st.registers, st.unregisters⟩ h1 h2' (by
          intro x hx; exact h3 x hx)
      simp only [runTrace, List.foldl_cons, hstep] at *
      simp only [regHandles]
      have h21 := ih.2.1
      have h22 := ih.2.2
      exact ⟨ih.1, by omega, by omega⟩

/-- Splitting a list into the sends that succeed and the sends that fail
preserves its length. -/
theorem filter_ok_length (send : Nat → SendOutcome) : ∀ reg : List Nat,
    (reg.filter (fun s => send s = SendOutcome.ok)).length +
      (reg.filter (fun s => ¬ send s = SendOutcome.ok)).length = reg.length
  | [] => rfl
  | c :: rest => by
    have ih := filter_ok_length send rest
    simp only [decide_not] at ih ⊢
    by_cases h : send c = SendOutcome.ok <;>
      simp [List.filter_cons, h] <;> omega

/-- When no other task mutates the registry at the suspension points, the
live-list pass leaves the registry untouched and attempts exactly the
entries from the iterator's position on. -/
theorem iterLoop_noSched (send : Nat → SendOutcome) :
    ∀ (fuel : Nat) (st : IState), st.reg.length ≤ st.idx + fuel →
      (iterLoop send noSched fuel st).reg = st.reg ∧
      (iterLoop send noSched fuel st).attempted =
        st.attempted ++ st.reg.drop st.idx
  | 0, st => by
    intro h
    have hnil : st.reg.drop st.idx = [] := List.drop_eq_nil_of_le (by omega)
    simp [iterLoop, hnil]
  | fuel + 1, st => by
    intro h
    by_cases hlt : st.idx < st.reg.length
    · have hdrop := List.drop_eq_getElem_cons hlt
      have harg : applyRegOps st.reg (noSched st.idx) = st.reg := rfl
      have hcond : ∀ A D F : List Nat,
          (IState.mk st.reg (st.idx + 1) A D F).reg.length ≤
            (IState.mk st.reg (st.idx + 1) A D F).idx + fuel := by
        intro A D F; simp; omega
      simp only [iterLoop, dif_pos hlt]
      cases hsend : send (st.reg.get ⟨st.idx, hlt⟩) <;>
        · dsimp only
          rw [harg]
          refine ⟨(iterLoop_noSched send fuel _ (hcond _ _ _)).1, ?_⟩
          rw [(iterLoop_noSched send fuel _ (hcond _ _ _)).2]
          dsimp only
          rw [hdrop, List.append_assoc, List.singleton_append,
            List.get_eq_getElem]
    · have hle : st.reg.length ≤ st.idx := by omega
      simp [iterLoop, dif_neg hlt, List.drop_eq_nil_of_le hle]

end Hub

/-- C1: failure isolation and cleanup in broadcast — on a duplicate-free
registry, for every pattern of per-session send failures (channel already
closed or any other transport error), `broadcast` completes normally (no
per-session failure escalates past the dispatcher), attempts delivery to
every registered session in order, records exactly the failing sessions in
its failed set, and after the iteration exactly the failed sessions are
absent from the registry while every succeeding session is still present. -/
theorem broadcast_failure_isolation (reg : List Nat) (send : Nat → Hub.SendOutcome)
    (payload : String) (h : reg.Nodup) :
    (Hub.broadcast reg send payload).isOk = true ∧
    Hub.resAttempted (Hub.broadcast reg send payload) = reg ∧
    Hub.resFailed (Hub.broadcast reg send payload) =
      reg.filter (fun s => ¬ send s = Hub.SendOutcome.ok) ∧
    (∀ s ∈ reg, ¬ send s = Hub.SendOutcome.ok →
      ¬ s ∈ Hub.resReg (Hub.broadcast reg send payload)) ∧
    (∀ s ∈ reg, send s = Hub.SendOutcome.ok →
      s ∈ Hub.resReg (Hub.broadcast reg send payload)) ∧
    (∀ s ∈ Hub.resReg (Hub.broadcast reg send payload), s ∈ reg) := by
  rw [Hub.broadcast_ok reg send payload h]
  refine ⟨rfl, rfl, rfl, ?_, ?_, ?_⟩
  · intro s _ hfail
    simp [Hub.resReg, List.mem_filter, hfail]
  · intro s hs hok
    simp [Hub.resReg, List.mem_filter, hs, hok]
  · intro s hs
    simp only [Hub.resReg, List.mem_filter] at hs
    exact hs.1

/-- Witness for C1: registry `[1, 2]`, the send to session `2` faults. -/
theorem broadcast_failure_isolation_witness :
    (Hub.broadcast [1, 2] Hub.faultOnTwo "p").isOk = true ∧
    Hub.resAttempted (Hub.broadcast [1, 2] Hub.faultOnTwo "p") = [1, 2] ∧
    Hub.resFailed (Hub.broadcast [1, 2] Hub.faultOnTwo "p") =
      [1, 2].filter (fun s => ¬ Hub.faultOnTwo s = Hub.SendOutcome.ok) ∧
    (∀ s ∈ [1, 2], ¬ Hub.faultOnTwo s = Hub.SendOutcome.ok →
      ¬ s ∈ Hub.resReg (Hub.broadcast [1, 2] Hub.faultOnTwo "p")) ∧
    (∀ s ∈ [1, 2], Hub.faultOnTwo s = Hub.SendOutcome.ok →
      s ∈ Hub.resReg (Hub.broadcast [1, 2] Hub.faultOnTwo "p")) ∧
    (∀ s ∈ Hub.resReg (Hub.broadcast [1, 2] Hub.faultOnTwo "p"), s ∈ [1, 2]) :=
  broadcast_failure_isolation [1, 2] Hub.faultOnTwo "p" (by decide)

/-- C2 counterexample: the claim says `broadcast` on an empty registry returns
the delivered count 0; the source function has no return statement, so it
returns `None`, never a count. -/
theorem broadcast_returns_none :
    Hub.resRet (Hub.broadcast [] Hub.sendAllOk "p") = none ∧
    ¬ Hub.resRet (Hub.broadcast [] Hub.sendAllOk "p") = some 0 :=
  ⟨rfl, by decide⟩

/-- C2 (amended): `broadcast` returns `None` rather than a delivered count;
the number of sessions that received the payload without error is N − K
(delivered + failed = N) and equals the size of the registry immediately
afterwards, which is what the hub reports; on an empty registry the call
completes without fault, delivers to no one, and leaves the registry empty. -/
theorem broadcast_delivered_count (reg : List Nat) (send : Nat → Hub.SendOutcome)
    (payload : String) (h : reg.Nodup) :
    Hub.resRet (Hub.broadcast reg send payload) = none ∧
    (Hub.resDelivered (Hub.broadcast reg send payload)).length +
      (Hub.resFailed (Hub.broadcast reg send payload)).length = reg.length ∧
    (Hub.resReg (Hub.broadcast reg send payload)).length =
      (Hub.resDelivered (Hub.broadcast reg send payload)).length ∧
    Hub.broadcast [] send payload = .ok ⟨[], [], [], [], payload, none⟩ := by
  rw [Hub.broadcast_ok reg send payload h]
  exact ⟨rfl, Hub.filter_ok_length send reg, rfl, rfl⟩

/-- Witness for C2 at registry `[7, 2]` where the send to `2` faults. -/
theorem broadcast_delivered_count_witness :
    Hub.resRet (Hub.broadcast [7, 2] Hub.faultOnTwo "go") = none ∧
    (Hub.resDelivered (Hub.broadcast [7, 2] Hub.faultOnTwo "go")).length +
      (Hub.resFailed (Hub.broadcast [7, 2] Hub.faultOnTwo "go")).length =
        [7, 2].length ∧
    (Hub.resReg (Hub.broadcast [7, 2] Hub.faultOnTwo "go")).length =
      (Hub.resDelivered (Hub.broadcast [7, 2] Hub.faultOnTwo "go")).length ∧
    Hub.broadcast [] Hub.faultOnTwo "go" = .ok ⟨[], [], [], [], "go", none⟩ :=
  broadcast_delivered_count [7, 2] Hub.faultOnTwo "go" (by decide)

/-- C5: registry size invariant — over any call history whose registered
handles are pairwise distinct, the registry size equals the number of
`register` calls minus the number of successful `unregister` calls (which are
automatically distinct), the successful unregisters never exceed the
registers (so the size is never negative), and the registry never holds a
duplicate handle. -/
theorem registry_size_invariant (ops : List Hub.TraceOp)
    (h : (Hub.regHandles ops).Nodup) :
    (Hub.runTrace ⟨[], 0, 0⟩ ops).reg.length +
        (Hub.runTrace ⟨[], 0, 0⟩ ops).unregisters
      = (Hub.runTrace ⟨[], 0, 0⟩ ops).registers ∧
    (Hub.runTrace ⟨[], 0, 0⟩ ops).unregisters ≤
      (Hub.runTrace ⟨[], 0, 0⟩ ops).registers ∧
    (Hub.runTrace ⟨[], 0, 0⟩ ops).reg.Nodup := by
  obtain ⟨h1, h2, h3⟩ :=
    Hub.runTrace_invariant ops ⟨[], 0, 0⟩ (by simp) h (by simp)
  simp at h2 h3
  exact ⟨by omega, by omega, h1⟩

/-- Witness for C5: register 1, register 2, then unregister 1 twice (the
second call raises and does not count as successful). -/
theorem registry_size_invariant_witness :
    (Hub.runTrace ⟨[], 0, 0⟩
        [.register 1, .register 2, .unregister 1, .unregister 1]).reg.length +
      (Hub.runTrace ⟨[], 0, 0⟩
        [.register 1, .register 2, .unregister 1, .unregister 1]).unregisters
      = (Hub.runTrace ⟨[], 0, 0⟩
        [.register 1, .register 2, .unregister 1, .unregister 1]).registers ∧
    (Hub.runTrace ⟨[], 0, 0⟩
        [.register 1, .register 2, .unregister 1, .unregister 1]).unregisters ≤
      (Hub.runTrace ⟨[], 0, 0⟩
        [.register 1, .register 2, .unregister 1, .unregister 1]).registers ∧
    (Hub.runTrace ⟨[], 0, 0⟩
        [.register 1, .register 2, .unregister 1, .unregister 1]).reg.Nodup :=
  registry_size_invariant
    [.register 1, .register 2, .unregister 1, .unregister 1] (by decide)

/-- C3 counterexample: `disconnect` of an absent handle is not a no-op — it
raises `ValueError` (Python `list.remove`), and after a first successful
`disconnect` of `5` from `[5]` a second `disconnect 5` raises instead of
doing nothing. -/
theorem disconnect_absent_raises :
    Hub.disconnect [5] 0 = .error "ValueError" ∧
    Hub.disconnect [5] 5 = .ok [] ∧
    Hub.disconnect [] 5 = .error "ValueError" := by
  refine ⟨rfl, rfl, rfl⟩

/-- C3 (amended): `disconnect` of a handle present in a duplicate-free
registry removes it; the handle is then absent, and a second `disconnect` of
the same handle raises `ValueError` while leaving the registry state exactly
as after the first call (the exception aborts before any mutation). -/
theorem disconnect_twice_raises (reg : List Nat) (s : Nat)
    (hmem : s ∈ reg) (hnd : reg.Nodup) :
    Hub.disconnect reg s = .ok (reg.erase s) ∧
    ¬ s ∈ reg.erase s ∧
    Hub.disconnect (reg.erase s) s = .error "ValueError" := by
  have habs : ¬ s ∈ reg.erase s := hnd.not_mem_erase
  refine ⟨?_, habs, ?_⟩
  · simp [Hub.disconnect, Hub.pyRemove, hmem]
  · simp [Hub.disconnect, Hub.pyRemove, habs]

/-- Witness for C3 (amended) at registry `[5, 6]`, handle `5`. -/
theorem disconnect_twice_raises_witness :
    Hub.disconnect [5, 6] 5 = .ok ([5, 6].erase 5) ∧
    ¬ 5 ∈ ([5, 6] : List Nat).erase 5 ∧
    Hub.disconnect (([5, 6] : List Nat).erase 5) 5 = .error "ValueError" :=
  disconnect_twice_raises [5, 6] 5 (by decide) (by decide)

/-- C6 counterexample: `broadcast` takes no snapshot — it iterates the live
`active_connections` list.  Session `2`, registering while the broadcast to
`[1]` is in flight (during the first send), DOES receive that broadcast,
and session `2`, unregistered from `[1, 2]` while the broadcast is in flight
(during the first send, before the iterator reaches it), gets NO delivery
attempt — both contrary to the claimed snapshot semantics. -/
theorem snapshot_before_iterate_cex :
    2 ∈ Hub.resDelivered (Hub.broadcastI [1] Hub.sendAllOk Hub.joinSched "q" 3) ∧
    ¬ 2 ∈ Hub.resAttempted (Hub.broadcastI [1, 2] Hub.sendAllOk Hub.leaveSched "q" 2) := by
  decide

/-- C6 (amended): `broadcast` iterates the live registry list rather than a
point-in-time copy.  When no concurrent mutation happens, the pass attempts
exactly the sessions registered at the start, in order; but a session
registered while a broadcast is in flight is also sent that broadcast once
the iterator reaches it, and a session unregistered while it is in flight,
before the iterator reaches its position, receives no delivery attempt. -/
theorem broadcast_live_iteration :
    (∀ (reg : List Nat) (send : Nat → Hub.SendOutcome) (payload : String),
      (Hub.broadcastI reg send Hub.noSched payload reg.length).isOk = true ∧
      Hub.resAttempted (Hub.broadcastI reg send Hub.noSched payload reg.length) = reg) ∧
    Hub.resDelivered (Hub.broadcastI [1] Hub.sendAllOk Hub.joinSched "p" 3) = [1, 2] ∧
    Hub.resAttempted (Hub.broadcastI [1, 2] Hub.sendAllOk Hub.leaveSched "p" 2) = [1] := by
  refine ⟨?_, rfl, rfl⟩
  intro reg send payload
  obtain ⟨hr, ha⟩ :=
    Hub.iterLoop_noSched send reg.length ⟨reg, 0, [], [], []⟩ (by simp)
  constructor
  · unfold Hub.broadcastI
    rw [hr, Hub.broadcastCleanup_eq_diff]
    rfl
  · unfold Hub.broadcastI Hub.resAttempted
    rw [hr, Hub.broadcastCleanup_eq_diff]
    dsimp only
    simpa using ha

/-- C7: the session is registered (`manager.connect`, line 114) before the
join notification is broadcast (lines 117-124), so the new session is among
the recipients of its own `\x7bstatus: connected\x7d` notification: it is in
the attempted list, and it is delivered to whenever its own send succeeds. -/
theorem join_notification_includes_new_session (reg : List Nat) (ws : Nat)
    (send : Nat → Hub.SendOutcome) (hfresh : ¬ ws ∈ reg) (hnd : reg.Nodup) :
    Hub.resPayload (Hub.websocketJoin reg ws send) = Hub.joinMessage ∧
    Hub.resAttempted (Hub.websocketJoin reg ws send) = reg ++ [ws] ∧
    ws ∈ Hub.resAttempted (Hub.websocketJoin reg ws send) ∧
    (send ws = Hub.SendOutcome.ok →
      ws ∈ Hub.resDelivered (Hub.websocketJoin reg ws send)) := by
  have hnd' : (reg ++ [ws]).Nodup := by
    simp [List.nodup_append, hnd, List.Disjoint]
    intro a ha has
    exact hfresh (has ▸ ha)
  unfold Hub.websocketJoin Hub.connect
  rw [Hub.broadcast_ok (reg ++ [ws]) send Hub.joinMessage hnd']
  refine ⟨rfl, rfl, by simp [Hub.resAttempted], ?_⟩
  intro hok
  simp [Hub.resDelivered, List.mem_filter, hok]

/-- Witness for C7: session `2` joins while `1` is registered. -/
theorem join_notification_includes_new_session_witness :
    Hub.resPayload (Hub.websocketJoin [1] 2 Hub.sendAllOk) = Hub.joinMessage ∧
    Hub.resAttempted (Hub.websocketJoin [1] 2 Hub.sendAllOk) = [1] ++ [2] ∧
    2 ∈ Hub.resAttempted (Hub.websocketJoin [1] 2 Hub.sendAllOk) ∧
    (Hub.sendAllOk 2 = Hub.SendOutcome.ok →
      2 ∈ Hub.resDelivered (Hub.websocketJoin [1] 2 Hub.sendAllOk)) :=
  join_notification_includes_new_session [1] 2 Hub.sendAllOk (by decide) (by decide)

/-- C8 counterexample: for the inbound action `left` the success
acknowledgement message is `Action 'left' broadcasted to 0 users.`; the
translated action is `right`, which does not occur in the message — the
acknowledgement carries the inbound token, not the translated one. -/
theorem ack_translated_action_cex :
    (Hub.send_action "left" [] Hub.sendAllOk).1 =
      .ok ⟨"success", "Action 'left' broadcasted to 0 users."⟩ ∧
    Hub.translate "left" = "right" ∧
    ¬ (Hub.translate "left").data <:+:
        "Action 'left' broadcasted to 0 users.".data := by
  refine ⟨rfl, rfl, by decide⟩

/-- C8 (amended): on a valid command and a duplicate-free registry, dispatch
completes without a dispatcher-level fault and the request boundary returns a
success acknowledgement that embeds the *inbound* action token and the number
of sessions currently registered (the post-cleanup registry size). -/
theorem ack_contains_inbound_action (action : String) (reg : List Nat)
    (send : Nat → Hub.SendOutcome) (hv : action ∈ Hub.validActions)
    (hnd : reg.Nodup) :
    (Hub.send_action action reg send).1 =
      .ok ⟨"success", "Action '" ++ action ++ "' broadcasted to "
        ++ toString (reg.filter (fun s => send s = Hub.SendOutcome.ok)).length
        ++ " users."⟩ ∧
    (Hub.send_action action reg send).2 =
      reg.filter (fun s => send s = Hub.SendOutcome.ok) ∧
    action.data <:+:
      ("Action '" ++ action ++ "' broadcasted to "
        ++ toString (reg.filter (fun s => send s = Hub.SendOutcome.ok)).length
        ++ " users.").data := by
  have hb := Hub.broadcast_ok reg send (Hub.translate action) hnd
  unfold Hub.send_action
  rw [if_pos hv, hb]
  refine ⟨rfl, rfl, ?_⟩
  have hdata : ("Action '" ++ action ++ "' broadcasted to "
      ++ toString (reg.filter (fun s => send s = Hub.SendOutcome.ok)).length
      ++ " users.").data
      = "Action '".data ++ action.data ++ ("' broadcasted to "
        ++ toString (reg.filter (fun s => send s = Hub.SendOutcome.ok)).length
        ++ " users.").data := by
    simp [String.data_append, List.append_assoc]
  rw [hdata]
  exact List.infix_append _ _ _

/-- Witness for C8 (amended): the spec scenario — sessions 1 and 2 are
registered, a `push` command arrives, the acknowledgement reports 2 users. -/
theorem ack_contains_inbound_action_witness :
    (Hub.send_action "push" [1, 2] Hub.sendAllOk).1 =
      .ok ⟨"success", "Action '" ++ "push" ++ "' broadcasted to "
        ++ toString ([1, 2].filter
            (fun s => Hub.sendAllOk s = Hub.SendOutcome.ok)).length
        ++ " users."⟩ ∧
    (Hub.send_action "push" [1, 2] Hub.sendAllOk).2 =
      [1, 2].filter (fun s => Hub.sendAllOk s = Hub.SendOutcome.ok) ∧
    "push".data <:+:
      ("Action '" ++ "push" ++ "' broadcasted to "
        ++ toString ([1, 2].filter
            (fun s => Hub.sendAllOk s = Hub.SendOutcome.ok)).length
        ++ " users.").data :=
  ack_contains_inbound_action "push" [1, 2] Hub.sendAllOk (by decide) (by decide)

/-- C9: a command token outside the closed action set is rejected at the
request boundary with a client-error acknowledgement, and the registry is
untouched — no translation or broadcast happens. -/
theorem invalid_action_rejected (action : String) (reg : List Nat)
    (send : Nat → Hub.SendOutcome) (hv : ¬ action ∈ Hub.validActions) :
    (Hub.send_action action reg send).1 = .error "422 Unprocessable Entity" ∧
    (Hub.send_action action reg send).2 = reg := by
  unfold Hub.send_action
  rw [if_neg hv]
  exact ⟨rfl, rfl⟩

/-- Witness for C9: the invalid token `jump` with session `1` registered. -/
theorem invalid_action_rejected_witness :
    (Hub.send_action "jump" [1] Hub.sendAllOk).1 =
      .error "422 Unprocessable Entity" ∧
    (Hub.send_action "jump" [1] Hub.sendAllOk).2 = [1] :=
  invalid_action_rejected "jump" [1] Hub.sendAllOk (by decide)

/-- C10: the post-broadcast cleanup is membership-guarded — for every registry
and every failed set it completes without raising (returning the list
difference), even though an unguarded `list.remove` of an absent socket
raises `ValueError`; concretely, when failing session `2` is unregistered by
another task during the same broadcast (at the suspension point of its own
send), the cleanup pass skips it and the broadcast still completes. -/
theorem cleanup_membership_guarded :
    (∀ reg dis : List Nat, Hub.broadcastCleanup reg dis = .ok (reg.diff dis)) ∧
    Hub.pyRemove [1] 2 = .error "ValueError" ∧
    Hub.broadcastCleanup [1] [2] = .ok [1] ∧
    Hub.broadcastI [1, 2] Hub.faultOnTwo Hub.leaveLateSched "p" 2 =
      .ok ⟨[1], [1, 2], [1], [2], "p", none⟩ :=
  ⟨fun reg dis => Hub.broadcastCleanup_eq_diff dis reg, rfl, rfl, rfl⟩

/-- C4: the Action Translator is the pure total table
left ↦ right, right ↦ left, rotateForwards ↦ up, rotateReverse ↦ down,
pull ↦ pull, push ↦ push. -/
theorem translate_table :
    Hub.translate "left" = "right" ∧
    Hub.translate "right" = "left" ∧
    Hub.translate "rotateForwards" = "up" ∧
    Hub.translate "rotateReverse" = "down" ∧
    Hub.translate "pull" = "pull" ∧
    Hub.translate "push" = "push" := by
  refine ⟨rfl, rfl, rfl, rfl, rfl, rfl⟩
